import Mathlib

/-!
Shallow embedding of the I/O-facade layer of the zedio runtime
(`src/zedio/net/socket.hpp`, `src/zedio/net/io.hpp`,
`src/zedio/io/awaiter/fsetxattr.hpp`, `src/zedio/async/config.hpp`).

Kernel calls are modelled by explicit environment values describing the
outcome of each call; machine integers (`int`, `std::size_t`) are modelled
as `Int`/`Nat` with explicit `% 2 ^ 64` where `size_t` wraparound matters.
`Result<T>` (`std::expected<T, error>`) is modelled as `Except Int T`,
errors carrying the system error code.
-/

namespace Zedio

/-- Modelled from the spec: `make_sys_error` is declared in
`zedio/common/error.hpp`, which is not among the sources. Per the spec's
result-interpretation rule (`raw ≥ 0 → success(raw)`, `raw < 0 →
failure(kind = -raw)`) and "IoError(code) — any negative kernel return;
propagated verbatim", the error it builds carries the (positive) system
error code verbatim, so its stored value is the code it was given. -/
def make_sys_error (code : Int) : Int := code

/-- The Linux error number `EINTR`. -/
def EINTR : Int := 4

/-- The Linux flag `SOCK_NONBLOCK`. -/
def SOCK_NONBLOCK : Nat := 2048

/-- Structure `zedio::net::detail::SocketIO` (src/zedio/net/io.hpp:8-11): a thin
wrapper holding the file descriptor `fd_` (spelled `SocketIO` in the
source). -/
structure SocketIo where
  fd_ : Int
deriving DecidableEq, Repr

/-- A TCP stream facade wrapping a `SocketIo`, as built by
`Accept::await_resume` (`Stream{SocketIO{...}}`) and
`Connect::await_resume` (`Stream{std::move(io_)}`). -/
structure Stream where
  io : SocketIo
deriving DecidableEq, Repr

/-! ## C1: result interpretation in `await_resume` -/

/-- Function `Fsetxattr::await_resume` (src/zedio/io/awaiter/fsetxattr.hpp:15-21):
`if (cb_.result_ >= 0) return {}; else return
unexpected{make_sys_error(-cb_.result_)}`. The success branch
value-initializes the `Result<std::size_t>` payload, producing `0`. -/
def Fsetxattr.await_resume (result_ : Int) : Except Int Nat :=
  if result_ ≥ 0 then .ok 0 else .error (make_sys_error (-result_))

/-- The `Accept` awaiter built by `SocketIO::accept`
(src/zedio/net/io.hpp:44-69): it captures the listening fd and the flag in
its prep arguments and owns the peer-address output storage — an `Addr`
field `addr_` and a length field `length_`. `result_` is the raw kernel
result slot `cb_.result_`. -/
structure AcceptAwaiter (Addr : Type) where
  fd : Int
  addr_ : Addr
  length_ : Nat
  flags : Nat
  result_ : Int
deriving DecidableEq, Repr

/-- Method `SocketIO::accept` (src/zedio/net/io.hpp:44-69): builds the `Accept`
awaiter `Accept{fd_}`, whose constructor passes
`io_uring_prep_accept, fd, (sockaddr*)&addr_, &length_, SOCK_NONBLOCK`
with `addr_{}` value-initialized and `length_{sizeof(Addr)}`. The result
slot starts at zero. -/
def SocketIo.accept (s : SocketIo) (Addr : Type) [Inhabited Addr]
    (sizeofAddr : Nat) : AcceptAwaiter Addr :=
  { fd := s.fd_, addr_ := default, length_ := sizeofAddr,
    flags := SOCK_NONBLOCK, result_ := 0 }

/-- Kernel completion of an accept operation: the poller writes the raw
result into the descriptor's result slot (spec §4.3), and on success the
kernel has written the peer address and its length through the pointers
the prep call received — which for this awaiter are its own
`addr_`/`length_` fields. -/
def AcceptAwaiter.complete {Addr : Type} (a : AcceptAwaiter Addr)
    (raw : Int) (peer : Addr) (peerLen : Nat) : AcceptAwaiter Addr :=
  if raw ≥ 0 then { a with result_ := raw, addr_ := peer, length_ := peerLen }
  else { a with result_ := raw }

/-- Method `Accept::await_resume` (src/zedio/net/io.hpp:56-62):
`if (cb_.result_ >= 0) return make_pair(Stream{SocketIO{cb_.result_}}, addr_);
else return unexpected{make_sys_error(-cb_.result_)}`. -/
def AcceptAwaiter.await_resume {Addr : Type} (a : AcceptAwaiter Addr) :
    Except Int (Stream × Addr) :=
  if a.result_ ≥ 0 then .ok (⟨⟨a.result_⟩⟩, a.addr_)
  else .error (make_sys_error (-a.result_))

/-! ## C2: `Socket::sync_close` -/

/-- One `::close` attempt as the kernel contract allows it: `close`
returns `0` on success and `-1` on failure, setting `errno` on failure. -/
structure CloseOutcome where
  success : Bool
  errno : Int
deriving DecidableEq, Repr

/-- The C return value of the `::close` call described by `o`. -/
def CloseOutcome.ret (o : CloseOutcome) : Int := if o.success then 0 else -1

/-- Function `Socket::sync_close` (src/zedio/net/socket.hpp:415-424), counting the
number of `::close` calls the loop performs when the successive attempts
behave as `outcomes` (head first):

    int ret = 0; int cnt = 3;
    do { if (ret = ::close(fd); ret == 0) return; }
    while (ret == EINTR && cnt--);

`cnt--` post-decrements: the loop-continuation test reads the old value
of `cnt` (nonzero means continue) and then decrements it. -/
def sync_close_calls : List CloseOutcome → Nat → Nat
  | [], _ => 0
  | o :: rest, cnt =>
    if o.ret = 0 then 1
    else if o.ret = EINTR ∧ cnt ≠ 0 then 1 + sync_close_calls rest (cnt - 1)
    else 1

/-! ## C3: `SocketIO::build_stream`'s `Connect` awaiter -/

/-- The `Connect` awaiter defined inside `SocketIO::build_stream`
(src/zedio/net/io.hpp:294-330). `io_` is initialized to `SocketIO{-1}`,
`addr_` stores the target address, `result_` is the raw result slot
`cb_.result_` (initially unset; zero here), and `suspended` records
whether control reached `Super::await_suspend`. -/
structure ConnectAwaiter (Addr : Type) where
  io_ : SocketIo
  addr_ : Addr
  result_ : Int
  suspended : Bool
deriving DecidableEq, Repr

/-- The `Connect` constructor (src/zedio/net/io.hpp:300-302): prep args
are seeded with fd `-1` and a null address; `io_{-1}`; `addr_{addr}`. -/
def ConnectAwaiter.init {Addr : Type} (addr : Addr) : ConnectAwaiter Addr :=
  { io_ := ⟨-1⟩, addr_ := addr, result_ := 0, suspended := false }

/-- Method `Connect::await_suspend` (src/zedio/net/io.hpp:304-315), with
`buildResult` the outcome of `SocketIO::build_socket(addr_.family(),
SOCK_STREAM, 0)`: on failure it assigns `cb_.result_ =
ret.error().value()` and returns `false` (the coroutine is not suspended
and resumes immediately); on success it moves the new socket into `io_`,
patches the prep args, and proceeds to `Super::await_suspend`
(modelled as returning `true`: the operation is submitted). -/
def ConnectAwaiter.await_suspend {Addr : Type} (c : ConnectAwaiter Addr)
    (buildResult : Except Int SocketIo) : ConnectAwaiter Addr × Bool :=
  match buildResult with
  | .error e => ({ c with result_ := e }, false)
  | .ok io => ({ c with io_ := io, suspended := true }, true)

/-- Method `Connect::await_resume` (src/zedio/net/io.hpp:317-323):
`if (cb_.result_ >= 0) return Stream{std::move(io_)};
else return unexpected{make_sys_error(-cb_.result_)}`. -/
def ConnectAwaiter.await_resume {Addr : Type} (c : ConnectAwaiter Addr) :
    Except Int Stream :=
  if c.result_ ≥ 0 then .ok ⟨c.io_⟩
  else .error (make_sys_error (-c.result_))

/-! ## C4: `Socket::shutdown` -/

/-- Method `Socket::shutdown` (src/zedio/net/socket.hpp:53-58), given the return
value of the `::shutdown` kernel call and the `errno` it set on failure:

    if (::shutdown(fd_, how) == -1) return unexpected{make_sys_error(errno)};

The function's return type is `Result<void>`, but the success path falls
off the end of the function without a return statement; `none` models
that no `Result` value is produced there. -/
def Socket.shutdown (shutdownRet : Int) (errno : Int) :
    Option (Except Int Unit) :=
  if shutdownRet = -1 then some (.error (make_sys_error errno)) else none

/-! ## C5: `local_addr` in `Socket` vs `SocketIO` -/

/-- Kernel behaviour of one `getsockname` call: whether it succeeds, the
address and length it writes back on success, and the `errno` it sets on
failure. On failure the kernel writes nothing through the pointers. -/
structure GetsocknameEnv (Addr : Type) where
  success : Bool
  outAddr : Addr
  outLen : Nat
  errno : Int

/-- The observable record of one `local_addr` run: the length value that
was passed to `::getsockname`, the value the local length variable holds
after the call, and the function's result. -/
structure LocalAddrRun (Addr : Type) where
  lenArg : Nat
  lenAfter : Nat
  result : Except Int (Addr × Nat)

/-- Method `Socket::local_addr` (src/zedio/net/socket.hpp:185-196):

    struct sockaddr_storage addr {};
    socklen_t               len;            // ← never initialized
    if (::getsockname(fd_, (sockaddr*)&addr, &len) == -1)
        return unexpected{make_sys_error(errno)};
    return Addr{(sockaddr*)&addr, len};

`junk` stands for the indeterminate value the uninitialized stack slot
`len` happens to hold when it is handed to the kernel. -/
def Socket.local_addr {Addr : Type} (junk : Nat)
    (env : GetsocknameEnv Addr) : LocalAddrRun Addr :=
  { lenArg := junk,
    lenAfter := if env.success then env.outLen else junk,
    result := if env.success then .ok (env.outAddr, env.outLen)
              else .error (make_sys_error env.errno) }

/-- Method `SocketIO::local_addr` (src/zedio/net/io.hpp:96-106):

    Addr      addr{};
    socklen_t len{sizeof(addr)};            // ← initialized
    if (::getsockname(fd_, addr.sockaddr(), &len) == -1)
        return unexpected{make_sys_error(errno)};
    return addr;

The length is initialized to `sizeof(addr)` before the call, so no junk
value can reach the kernel; the function returns only the address. -/
def SocketIo.local_addr {Addr : Type} (sizeofAddr : Nat)
    (env : GetsocknameEnv Addr) : Nat × Nat × Except Int Addr :=
  ( sizeofAddr,
    if env.success then env.outLen else sizeofAddr,
    if env.success then .ok env.outAddr
    else .error (make_sys_error env.errno) )

/-! ## C6: `Config` defaults -/

/-- Structure `zedio::async::detail::Config` (src/zedio/async/config.hpp:7-27). -/
structure Config where
  num_worker_ : Nat
  check_io_interval_ : Nat
  check_global_interval_ : Nat
  ring_entries_ : Nat
  io_uring_flags_ : Nat
deriving DecidableEq, Repr

/-- The default-constructed `Config` (src/zedio/async/config.hpp:7-27),
with `hardwareConcurrency` the value of
`std::thread::hardware_concurrency()` on the host. -/
def Config.mkDefault (hardwareConcurrency : Nat) : Config :=
  { num_worker_ := hardwareConcurrency,
    check_io_interval_ := 61,
    check_global_interval_ := 61,
    ring_entries_ := 1024,
    io_uring_flags_ := 0 }

/-- Constant `Config::LOCAL_QUEUE_CAPACITY` (src/zedio/async/config.hpp:25). -/
def Config.LOCAL_QUEUE_CAPACITY : Nat := 256

/-- Constant `Config::FIXED_FILES_NUM` (src/zedio/async/config.hpp:26). -/
def Config.FIXED_FILES_NUM : Nat := 10

/-! ## C9: boolean socket-option getters -/

/-- Kernel behaviour of one `getsockopt` call for an `int`-valued option:
whether it succeeds, the option value it reports, and the `errno` it sets
on failure. -/
structure GetsockoptEnv where
  success : Bool
  optval : Int
  errno : Int
deriving DecidableEq, Repr

/-- Getter `Socket::reuseaddr` (src/zedio/net/socket.hpp:217-226): on a
successful `get_sock_opt` it returns `optval == 1`, otherwise the
error. -/
def Socket.reuseaddr (env : GetsockoptEnv) : Except Int Bool :=
  if env.success then .ok (decide (env.optval = 1))
  else .error (make_sys_error env.errno)

/-- Getter `Socket::reuseport` (src/zedio/net/socket.hpp:234-243): `optval == 1`
on success. -/
def Socket.reuseport (env : GetsockoptEnv) : Except Int Bool :=
  if env.success then .ok (decide (env.optval = 1))
  else .error (make_sys_error env.errno)

/-- Getter `Socket::broadcast` (src/zedio/net/socket.hpp:292-301): `optval == 1`
on success. -/
def Socket.broadcast (env : GetsockoptEnv) : Except Int Bool :=
  if env.success then .ok (decide (env.optval = 1))
  else .error (make_sys_error env.errno)

/-- Getter `Socket::keepalive` (src/zedio/net/socket.hpp:309-318): `optval == 1`
on success. -/
def Socket.keepalive (env : GetsockoptEnv) : Except Int Bool :=
  if env.success then .ok (decide (env.optval = 1))
  else .error (make_sys_error env.errno)

/-- Getter `SocketIO::reuseaddr` (src/zedio/net/io.hpp:126-135): on a successful
`get_sock_opt` it returns `optval != 0`, otherwise the error. -/
def SocketIo.reuseaddr (env : GetsockoptEnv) : Except Int Bool :=
  if env.success then .ok (decide (env.optval ≠ 0))
  else .error (make_sys_error env.errno)

/-- Getter `SocketIO::reuseport` (src/zedio/net/io.hpp:143-152): `optval != 0`
on success. -/
def SocketIo.reuseport (env : GetsockoptEnv) : Except Int Bool :=
  if env.success then .ok (decide (env.optval ≠ 0))
  else .error (make_sys_error env.errno)

/-- Getter `SocketIO::broadcast` (src/zedio/net/io.hpp:201-210): `optval != 0`
on success. -/
def SocketIo.broadcast (env : GetsockoptEnv) : Except Int Bool :=
  if env.success then .ok (decide (env.optval ≠ 0))
  else .error (make_sys_error env.errno)

/-- Getter `SocketIO::keepalive` (src/zedio/net/io.hpp:218-227): `optval != 0`
on success. -/
def SocketIo.keepalive (env : GetsockoptEnv) : Except Int Bool :=
  if env.success then .ok (decide (env.optval ≠ 0))
  else .error (make_sys_error env.errno)

/-! ## C8: `Socket` fd-lifecycle transition system

`Socket`'s special members (src/zedio/net/socket.hpp:26-51) manipulate the
owned fd:

    ~Socket()                 { if (fd_ >= 0) sync_close(fd_); }
    Socket(Socket&& o)        : fd_{o.fd_} { o.fd_ = -1; }
    operator=(Socket&& o)     { if (fd_ >= 0) sync_close(fd_);
                                fd_ = o.fd_; o.fd_ = -1; return *this; }
    close()                   { auto fd = fd_; fd_ = -1;
                                return async::close(fd); }

The state tracks every socket object's `fd_` (slot `i` holds the fd of
object `i`; `-1` marks moved-from, closed or destroyed objects) and the
log of fds handed to a kernel close (`sync_close` or `async::close`). -/

/-- The fds of all socket objects (`-1` = no owned fd) together with the
log of fd arguments passed to a kernel close so far. -/
structure SockState where
  socks : Nat → Int
  closed : List Int

/-- The operations the claim ranges over: `Socket::close()`, the
destructor, the move constructor (object `dst` move-constructed from
object `src`) and move assignment (`dst = std::move(src)`). -/
inductive SockOp where
  | close (i : Nat)
  | destruct (i : Nat)
  | moveCtor (dst src : Nat)
  | moveAssign (dst src : Nat)

/-- One `Socket` special-member call (src/zedio/net/socket.hpp:26-51).
`close` unconditionally submits `async::close(fd)` on the old value and
sets `fd_ = -1`; the destructor and move assignment call `sync_close`
only when `fd_ >= 0`; moves transfer the fd and set the source to `-1`
(reading the source after the destination's close, as the assignment
operator does). -/
def SockOp.step (s : SockState) : SockOp → SockState
  | .close i =>
    { socks := fun k => if k = i then -1 else s.socks k,
      closed := s.closed ++ [s.socks i] }
  | .destruct i =>
    { socks := fun k => if k = i then -1 else s.socks k,
      closed := if 0 ≤ s.socks i then s.closed ++ [s.socks i] else s.closed }
  | .moveCtor dst src =>
    { socks := fun k =>
        if k = src then -1 else if k = dst then s.socks src else s.socks k,
      closed := s.closed }
  | .moveAssign dst src =>
    { socks := fun k =>
        if k = src then -1 else if k = dst then s.socks src else s.socks k,
      closed := if 0 ≤ s.socks dst then s.closed ++ [s.socks dst] else s.closed }

/-- Run a sequence of `Socket` special-member calls from a state. -/
def SockState.run (s : SockState) (ops : List SockOp) : SockState :=
  ops.foldl SockOp.step s

/-- Well-formedness of a socket system: distinct objects own distinct
live fds, no live fd has been closed already, and no fd has been closed
twice. -/
def SockInv (s : SockState) : Prop :=
  (∀ i j, 0 ≤ s.socks i → s.socks i = s.socks j → i = j) ∧
  (∀ v : Int, 0 ≤ v → s.closed.count v ≤ 1) ∧
  (∀ i, 0 ≤ s.socks i → s.socks i ∉ s.closed)

/-! ## C10: `Socket::write_all` -/

/-- Outcome of one underlying `co_await this->write(...)`: the error code,
or the number of bytes the kernel reports written. -/
abbrev WriteResult := Except Int Nat

/-- The modulus of `std::size_t` arithmetic, `2 ^ 64`. -/
def SIZE_T_MOD : Nat := 2 ^ 64

/-- The loop of `Socket::write_all` (src/zedio/net/socket.hpp:100-112):

    while (remaining_bytes > 0) {
        auto ret = co_await this->write(buf.data() + has_written_bytes,
                                        remaining_bytes);
        if (!ret) co_return unexpected{ret.error()};
        has_written_bytes += ret.value();
        remaining_bytes -= ret.value();
    }
    co_return Result<void>{};

`rs` is the finite prefix of underlying write results the model supplies
(consumed in order); `none` means the loop is still running after
consuming all of them. `has_written_bytes`/`remaining_bytes` are
`std::size_t`, so their updates wrap modulo `2 ^ 64`. Returns the
`Result` together with the final `has_written_bytes`. -/
def write_all_go : List WriteResult → Nat → Nat → Option (Except Int Unit × Nat)
  | [], written, remaining =>
    if remaining = 0 then some (.ok (), written) else none
  | r :: rest, written, remaining =>
    if remaining = 0 then some (.ok (), written)
    else
      match r with
      | .error e => some (.error e, written)
      | .ok k =>
        write_all_go rest ((written + k) % SIZE_T_MOD)
          ((remaining + (SIZE_T_MOD - k % SIZE_T_MOD)) % SIZE_T_MOD)

/-- Termination of `Socket::write_all` on a buffer of `len` bytes, driven by the first
`n` results of the oracle `oracle` for some `n`: the call terminates iff
some finite prefix of the oracle's answers lets the loop exit. -/
def WriteAllTerminates (len : Nat) (oracle : Nat → WriteResult) : Prop :=
  ∃ n, write_all_go ((List.range n).map oracle) 0 len ≠ none

/-- Kernel-faithful write results for a run that starts with `remaining`
bytes outstanding: while the loop is still running, the next result is
either an error or reports between `1` and `remaining` bytes written, and
the modelled prefix is long enough for the loop to finish. -/
def goodResults : List WriteResult → Nat → Prop
  | _, 0 => True
  | [], _ + 1 => False
  | .error _ :: _, _ + 1 => True
  | .ok k :: rest, r + 1 => 1 ≤ k ∧ k ≤ r + 1 ∧ goodResults rest (r + 1 - k)

/-- The first error among a sequence of write results. -/
def firstError : List WriteResult → Option Int
  | [] => none
  | .error e :: _ => some e
  | .ok _ :: rest => firstError rest

/-- Decision procedure for `goodResults`, following its recursion. -/
instance goodResultsDecidable :
    (rs : List WriteResult) → (remaining : Nat) → Decidable (goodResults rs remaining)
  | [], 0 => isTrue trivial
  | [], _ + 1 => isFalse (fun h => h)
  | .error _ :: _, 0 => isTrue trivial
  | .error _ :: _, _ + 1 => isTrue trivial
  | .ok _ :: _, 0 => isTrue trivial
  | .ok k :: rest, r + 1 =>
    have : Decidable (goodResults rest (r + 1 - k)) :=
      goodResultsDecidable rest (r + 1 - k)
    inferInstanceAs (Decidable (1 ≤ k ∧ k ≤ r + 1 ∧ goodResults rest (r + 1 - k)))

/-! ## Theorems -/

/-- C1: for every I/O awaiter, `await_resume` inspects the stored raw
kernel result `r`: if `r ≥ 0` it yields a typed success (the constant
value-initialized payload for `Fsetxattr`, a new `Stream`/address pair for
`Accept`), and if `r < 0` it yields a failure whose error kind is `-r`
interpreted as a system error code, propagated verbatim. -/
theorem c1_await_resume_result_rule (r fd : Int) (addr : Nat)
    (len flags : Nat) :
    (0 ≤ r →
      Fsetxattr.await_resume r = .ok 0 ∧
      (AcceptAwaiter.mk fd addr len flags r).await_resume =
        .ok (⟨⟨r⟩⟩, addr)) ∧
    (r < 0 →
      Fsetxattr.await_resume r = .error (make_sys_error (-r)) ∧
      (AcceptAwaiter.mk fd addr len flags r).await_resume =
        .error (make_sys_error (-r))) := by
  constructor
  · intro h
    constructor <;> simp [Fsetxattr.await_resume, AcceptAwaiter.await_resume, h]
  · intro h
    have h' : ¬ (0 ≤ r) := not_le.mpr h
    constructor <;>
      simp [Fsetxattr.await_resume, AcceptAwaiter.await_resume, h']

/-- Witness for C1, at a success result `7` and a failure result `-13`. -/
theorem c1_witness :
    (Fsetxattr.await_resume 7 = .ok 0 ∧
      (AcceptAwaiter.mk 3 5 16 2048 7).await_resume = .ok (⟨⟨7⟩⟩, 5)) ∧
    (Fsetxattr.await_resume (-13) = .error (make_sys_error 13) ∧
      (AcceptAwaiter.mk 3 5 16 2048 (-13)).await_resume =
        .error (make_sys_error 13)) :=
  ⟨(c1_await_resume_result_rule 7 3 5 16 2048).1 (by decide),
   (c1_await_resume_result_rule (-13) 3 5 16 2048).2 (by decide)⟩

/-- C2 (code bug): the `sync_close` loop compares the return value of
`::close` — which is `0` or `-1` — against `EINTR` (= 4) instead of
against `errno`, so the retry condition is never true: every call of
`sync_close` performs exactly one `::close`, even when `::close` keeps
failing with `errno = EINTR`; the claimed bounded EINTR retry never
happens. -/
theorem c2_sync_close_never_retries :
    (∀ (o : CloseOutcome) (rest : List CloseOutcome) (cnt : Nat),
      sync_close_calls (o :: rest) cnt = 1) ∧
    sync_close_calls
      [⟨false, EINTR⟩, ⟨false, EINTR⟩, ⟨false, EINTR⟩, ⟨false, EINTR⟩] 3
      = 1 := by
  constructor
  · intro o rest cnt
    rcases o with ⟨s, e⟩
    cases s <;> simp [sync_close_calls, CloseOutcome.ret, EINTR]
  · decide

/-- C3 (code bug): when `SocketIO::build_socket` fails inside
`Connect::await_suspend` (here with `errno = 24`, `EMFILE`), the awaiter
stores the *positive* error value into `cb_.result_` and resumes the
coroutine immediately; `await_resume` then takes its `result_ ≥ 0`
success branch and yields a success `Stream` wrapping the invalid socket
`SocketIO{-1}` — not the claimed failure carrying the socket-creation
error. -/
theorem c3_connect_build_failure_yields_invalid_stream :
    (((ConnectAwaiter.init ()).await_suspend
        (.error (make_sys_error 24))).2 = false) ∧
    ((((ConnectAwaiter.init ()).await_suspend
        (.error (make_sys_error 24))).1).await_resume = .ok ⟨⟨-1⟩⟩) :=
  ⟨rfl, rfl⟩

/-- C4 (code bug): `Socket::shutdown` returns the system-error failure
built from `errno` when `::shutdown` fails (here `errno = 13`), but when
`::shutdown` succeeds (returns `0`) the function produces no `Result` at
all — control falls off the end of the value-returning function — so not
every execution produces one of the two claimed results. -/
theorem c4_shutdown_success_path_returns_no_result :
    Socket.shutdown 0 0 = none ∧
    Socket.shutdown (-1) 13 = some (.error (make_sys_error 13)) :=
  ⟨rfl, rfl⟩

/-- C5: `Socket::local_addr` passes the uninitialized stack value `junk`
as the length to `getsockname` (and after a failed call the local length
variable still holds that junk value), whereas `SocketIO::local_addr`
initializes the length to `sizeof(addr)` before the call, so the value it
passes — and the value left after a failed call — is `sizeof(addr)`,
independent of any stack junk. -/
theorem c5_local_addr_length_initialization (Addr : Type)
    (env : GetsocknameEnv Addr) (junk junk' sizeofAddr : Nat) :
    (Socket.local_addr junk env).lenArg = junk ∧
    (SocketIo.local_addr sizeofAddr env).1 = sizeofAddr ∧
    (env.success = false →
      (Socket.local_addr junk env).lenAfter = junk ∧
      (SocketIo.local_addr sizeofAddr env).2.1 = sizeofAddr) ∧
    (junk ≠ junk' →
      (Socket.local_addr junk env).lenArg ≠
        (Socket.local_addr junk' env).lenArg) := by
  refine ⟨rfl, rfl, ?_, ?_⟩
  · intro h
    constructor <;> simp [Socket.local_addr, SocketIo.local_addr, h]
  · intro h
    simpa [Socket.local_addr] using h

/-- Witness for C5, with a failing `getsockname` and junk values 7, 9. -/
theorem c5_witness :
    (Socket.local_addr 7 (⟨false, 0, 0, 13⟩ : GetsocknameEnv Nat)).lenArg = 7 ∧
    (SocketIo.local_addr 16 (⟨false, 0, 0, 13⟩ : GetsocknameEnv Nat)).1 = 16 ∧
    ((Socket.local_addr 7 (⟨false, 0, 0, 13⟩ : GetsocknameEnv Nat)).lenAfter = 7 ∧
      (SocketIo.local_addr 16 (⟨false, 0, 0, 13⟩ : GetsocknameEnv Nat)).2.1 = 16) ∧
    (Socket.local_addr 7 (⟨false, 0, 0, 13⟩ : GetsocknameEnv Nat)).lenArg ≠
      (Socket.local_addr 9 (⟨false, 0, 0, 13⟩ : GetsocknameEnv Nat)).lenArg := by
  obtain ⟨h1, h2, h3, h4⟩ :=
    c5_local_addr_length_initialization Nat ⟨false, 0, 0, 13⟩ 7 9 16
  exact ⟨h1, h2, h3 rfl, h4 (by decide)⟩

/-- C6: the default-constructed `Config` has exactly the documented
defaults — `num_worker_` = hardware concurrency, both check intervals 61,
`ring_entries_` 1024, `io_uring_flags_` 0 — and the compile-time
constants are `LOCAL_QUEUE_CAPACITY = 256` and `FIXED_FILES_NUM = 10`. -/
theorem c6_config_defaults (hardwareConcurrency : Nat) :
    (Config.mkDefault hardwareConcurrency).num_worker_ =
      hardwareConcurrency ∧
    (Config.mkDefault hardwareConcurrency).check_io_interval_ = 61 ∧
    (Config.mkDefault hardwareConcurrency).check_global_interval_ = 61 ∧
    (Config.mkDefault hardwareConcurrency).ring_entries_ = 1024 ∧
    (Config.mkDefault hardwareConcurrency).io_uring_flags_ = 0 ∧
    Config.LOCAL_QUEUE_CAPACITY = 256 ∧
    Config.FIXED_FILES_NUM = 10 :=
  ⟨rfl, rfl, rfl, rfl, rfl, rfl, rfl⟩

/-- C7: the `Accept` descriptor produced by `SocketIO::accept` owns the
peer-address output storage — its `length_` field starts at
`sizeof(Addr)` and its prep arguments carry the listening fd and
`SOCK_NONBLOCK` — and on a nonnegative raw result (after the kernel wrote
the peer address through the storage the prep call pointed at),
`await_resume` returns the pair of a `Stream` wrapping the returned file
descriptor and the stored peer address. -/
theorem c7_accept_descriptor_owns_peer_storage (s : SocketIo)
    (sizeofAddr peerLen : Nat) (peer : Nat) (r : Int) :
    (s.accept Nat sizeofAddr).length_ = sizeofAddr ∧
    (s.accept Nat sizeofAddr).fd = s.fd_ ∧
    (s.accept Nat sizeofAddr).flags = SOCK_NONBLOCK ∧
    (0 ≤ r →
      ((s.accept Nat sizeofAddr).complete r peer peerLen).addr_ = peer ∧
      ((s.accept Nat sizeofAddr).complete r peer peerLen).await_resume =
        .ok (⟨⟨r⟩⟩, peer)) := by
  refine ⟨rfl, rfl, rfl, ?_⟩
  intro h
  constructor <;>
    simp [SocketIo.accept, AcceptAwaiter.complete, AcceptAwaiter.await_resume, h]

/-- Witness for C7, accepting on fd 3 with raw result 5. -/
theorem c7_witness :
    ((SocketIo.mk 3).accept Nat 16).length_ = 16 ∧
    ((SocketIo.mk 3).accept Nat 16).fd = 3 ∧
    ((SocketIo.mk 3).accept Nat 16).flags = SOCK_NONBLOCK ∧
    ((((SocketIo.mk 3).accept Nat 16).complete 5 42 8).addr_ = 42 ∧
      (((SocketIo.mk 3).accept Nat 16).complete 5 42 8).await_resume =
        .ok (⟨⟨5⟩⟩, 42)) := by
  obtain ⟨h1, h2, h3, h4⟩ :=
    c7_accept_descriptor_owns_peer_storage (SocketIo.mk 3) 16 8 42 5
  exact ⟨h1, h2, h3, h4 (by decide)⟩

/-- C9 counterexample: at the kernel-reported option value 2,
`Socket::reuseaddr` (testing `optval == 1`) returns `false` while
`SocketIO::reuseaddr` (testing `optval != 0`) returns `true`, so the two
getters do not agree for every integer option value. -/
theorem c9_counterexample_optval_two :
    Socket.reuseaddr ⟨true, 2, 0⟩ = .ok false ∧
    SocketIo.reuseaddr ⟨true, 2, 0⟩ = .ok true :=
  ⟨rfl, rfl⟩

/-- C9 (amended): for a kernel-reported option value, `Socket`'s boolean
option getters (`== 1`) and `SocketIO`'s (`!= 0`) return the same boolean
exactly when the reported value is 0 or 1; at any other value `Socket`
reports `false` while `SocketIO` reports `true`. -/
theorem c9_bool_getters_agree_iff_normalized (env : GetsockoptEnv)
    (h : env.success = true) :
    ((Socket.reuseaddr env = SocketIo.reuseaddr env ∧
      Socket.reuseport env = SocketIo.reuseport env ∧
      Socket.broadcast env = SocketIo.broadcast env ∧
      Socket.keepalive env = SocketIo.keepalive env) ↔
      (env.optval = 0 ∨ env.optval = 1)) := by
  rcases env with ⟨s, v, e⟩
  simp only at h
  subst h
  simp only [Socket.reuseaddr, SocketIo.reuseaddr, Socket.reuseport,
    SocketIo.reuseport, Socket.broadcast, SocketIo.broadcast,
    Socket.keepalive, SocketIo.keepalive, if_true, Except.ok.injEq,
    decide_eq_decide, and_self]
  omega

/-- Witness for C9, at the kernel-reported value 1. -/
theorem c9_witness :
    ((Socket.reuseaddr ⟨true, 1, 0⟩ = SocketIo.reuseaddr ⟨true, 1, 0⟩ ∧
      Socket.reuseport ⟨true, 1, 0⟩ = SocketIo.reuseport ⟨true, 1, 0⟩ ∧
      Socket.broadcast ⟨true, 1, 0⟩ = SocketIo.broadcast ⟨true, 1, 0⟩ ∧
      Socket.keepalive ⟨true, 1, 0⟩ = SocketIo.keepalive ⟨true, 1, 0⟩) ↔
      ((1 : Int) = 0 ∨ (1 : Int) = 1)) :=
  c9_bool_getters_agree_iff_normalized ⟨true, 1, 0⟩ rfl

/-- Helper for C8: the fd rearrangement shared by the move constructor
and move assignment preserves injectivity of live fds. -/
theorem sockMove_inj (f : Nat → Int)
    (hinj : ∀ i j, 0 ≤ f i → f i = f j → i = j) (dst src : Nat) :
    ∀ a b,
      0 ≤ (if a = src then -1 else if a = dst then f src else f a) →
      ((if a = src then -1 else if a = dst then f src else f a) =
        (if b = src then -1 else if b = dst then f src else f b)) →
      a = b := by
  intro a b ha hab
  by_cases has : a = src
  · rw [if_pos has] at ha
    exact absurd ha (by decide)
  · rw [if_neg has] at ha hab
    by_cases had : a = dst
    · rw [if_pos had] at ha hab
      by_cases hbs : b = src
      · rw [if_pos hbs] at hab
        exact absurd (hab ▸ ha) (by decide)
      · rw [if_neg hbs] at hab
        by_cases hbd : b = dst
        · rw [had, hbd]
        · rw [if_neg hbd] at hab
          exact absurd (hinj src b ha hab).symm hbs
    · rw [if_neg had] at ha hab
      by_cases hbs : b = src
      · rw [if_pos hbs] at hab
        exact absurd (hab ▸ ha) (by decide)
      · rw [if_neg hbs] at hab
        by_cases hbd : b = dst
        · rw [if_pos hbd] at hab
          exact absurd (hinj a src ha hab) has
        · rw [if_neg hbd] at hab
          exact hinj a b ha hab

/-- Helper for C8: every `Socket` special-member call preserves the
socket-system invariant. -/
theorem sockInv_step (s : SockState) (op : SockOp) (h : SockInv s) :
    SockInv (op.step s) := by
  obtain ⟨hinj, hcnt, hdisj⟩ := h
  cases op with
  | close i =>
    refine ⟨?_, ?_, ?_⟩
    · intro a b ha hab
      simp only [SockOp.step] at ha hab
      by_cases hai : a = i
      · rw [if_pos hai] at ha
        exact absurd ha (by decide)
      · rw [if_neg hai] at ha hab
        by_cases hbi : b = i
        · rw [if_pos hbi] at hab
          exact absurd (hab ▸ ha) (by decide)
        · rw [if_neg hbi] at hab
          exact hinj a b ha hab
    · intro v hv
      simp only [SockOp.step]
      rw [List.count_append]
      by_cases hfv : s.socks i = v
      · have hvpos : 0 ≤ s.socks i := by omega
        have hz : s.closed.count v = 0 :=
          List.count_eq_zero.mpr (hfv ▸ hdisj i hvpos)
        rw [hz, hfv]
        simp [List.count_singleton]
      · rw [List.count_singleton', if_neg hfv]
        simpa using hcnt v hv
    · intro a ha
      simp only [SockOp.step] at ha ⊢
      by_cases hai : a = i
      · rw [if_pos hai] at ha
        exact absurd ha (by decide)
      · rw [if_neg hai] at ha ⊢
        intro hmem
        rw [List.mem_append] at hmem
        rcases hmem with hmem | hmem
        · exact hdisj a ha hmem
        · rw [List.mem_singleton] at hmem
          exact hai (hinj a i ha hmem)
  | destruct i =>
    refine ⟨?_, ?_, ?_⟩
    · intro a b ha hab
      simp only [SockOp.step] at ha hab
      by_cases hai : a = i
      · rw [if_pos hai] at ha
        exact absurd ha (by decide)
      · rw [if_neg hai] at ha hab
        by_cases hbi : b = i
        · rw [if_pos hbi] at hab
          exact absurd (hab ▸ ha) (by decide)
        · rw [if_neg hbi] at hab
          exact hinj a b ha hab
    · intro v hv
      simp only [SockOp.step]
      by_cases hlive : 0 ≤ s.socks i
      · rw [if_pos hlive, List.count_append]
        by_cases hfv : s.socks i = v
        · have hz : s.closed.count v = 0 :=
            List.count_eq_zero.mpr (hfv ▸ hdisj i hlive)
          rw [hz, hfv]
          simp [List.count_singleton]
        · rw [List.count_singleton', if_neg hfv]
          simpa using hcnt v hv
      · rw [if_neg hlive]
        exact hcnt v hv
    · intro a ha
      simp only [SockOp.step] at ha ⊢
      by_cases hai : a = i
      · rw [if_pos hai] at ha
        exact absurd ha (by decide)
      · rw [if_neg hai] at ha ⊢
        by_cases hlive : 0 ≤ s.socks i
        · rw [if_pos hlive]
          intro hmem
          rw [List.mem_append] at hmem
          rcases hmem with hmem | hmem
          · exact hdisj a ha hmem
          · rw [List.mem_singleton] at hmem
            exact hai (hinj a i ha hmem)
        · rw [if_neg hlive]
          exact hdisj a ha
  | moveCtor dst src =>
    refine ⟨?_, ?_, ?_⟩
    · intro a b ha hab
      simp only [SockOp.step] at ha hab
      exact sockMove_inj s.socks hinj dst src a b ha hab
    · intro v hv
      simp only [SockOp.step]
      exact hcnt v hv
    · intro a ha
      simp only [SockOp.step] at ha ⊢
      by_cases has : a = src
      · rw [if_pos has] at ha
        exact absurd ha (by decide)
      · rw [if_neg has] at ha ⊢
        by_cases had : a = dst
        · rw [if_pos had] at ha ⊢
          exact hdisj src ha
        · rw [if_neg had] at ha ⊢
          exact hdisj a ha
  | moveAssign dst src =>
    refine ⟨?_, ?_, ?_⟩
    · intro a b ha hab
      simp only [SockOp.step] at ha hab
      exact sockMove_inj s.socks hinj dst src a b ha hab
    · intro v hv
      simp only [SockOp.step]
      by_cases hld : 0 ≤ s.socks dst
      · rw [if_pos hld, List.count_append]
        by_cases hfv : s.socks dst = v
        · have hz : s.closed.count v = 0 :=
            List.count_eq_zero.mpr (hfv ▸ hdisj dst hld)
          rw [hz, hfv]
          simp [List.count_singleton]
        · rw [List.count_singleton', if_neg hfv]
          simpa using hcnt v hv
      · rw [if_neg hld]
        exact hcnt v hv
    · intro a ha
      simp only [SockOp.step] at ha ⊢
      by_cases hld : 0 ≤ s.socks dst
      · rw [if_pos hld]
        by_cases has : a = src
        · rw [if_pos has] at ha
          exact absurd ha (by decide)
        · rw [if_neg has] at ha ⊢
          by_cases had : a = dst
          · rw [if_pos had] at ha ⊢
            intro hmem
            rw [List.mem_append] at hmem
            rcases hmem with hmem | hmem
            · exact hdisj src ha hmem
            · rw [List.mem_singleton] at hmem
              have hsd : src = dst := hinj src dst ha hmem
              exact has (had.trans hsd.symm)
          · rw [if_neg had] at ha ⊢
            intro hmem
            rw [List.mem_append] at hmem
            rcases hmem with hmem | hmem
            · exact hdisj a ha hmem
            · rw [List.mem_singleton] at hmem
              exact had (hinj a dst ha hmem)
      · rw [if_neg hld]
        by_cases has : a = src
        · rw [if_pos has] at ha
          exact absurd ha (by decide)
        · rw [if_neg has] at ha ⊢
          by_cases had : a = dst
          · rw [if_pos had] at ha ⊢
            exact hdisj src ha
          · rw [if_neg had] at ha ⊢
            exact hdisj a ha

/-- C8: every `Socket` closes its underlying file descriptor at most
once: `close()` and moves leave the source slot at `-1`, the destructor
and move assignment call `sync_close` only on a nonnegative fd, and — for
any sequence of close, move and destruction operations from a
well-formed socket system — no nonnegative fd value is handed to a
kernel close more than once. -/
theorem c8_socket_closes_each_fd_at_most_once (ops : List SockOp)
    (s : SockState) (h : SockInv s) :
    (SockInv (s.run ops) ∧
      ∀ v : Int, 0 ≤ v → (s.run ops).closed.count v ≤ 1) ∧
    (∀ i, (SockOp.step s (.close i)).socks i = -1) ∧
    (∀ dst src, (SockOp.step s (.moveCtor dst src)).socks src = -1) ∧
    (∀ dst src, (SockOp.step s (.moveAssign dst src)).socks src = -1) ∧
    (∀ i, s.socks i < 0 →
      (SockOp.step s (.destruct i)).closed = s.closed) ∧
    (∀ dst src, s.socks dst < 0 →
      (SockOp.step s (.moveAssign dst src)).closed = s.closed) := by
  refine ⟨?_, ?_, ?_, ?_, ?_, ?_⟩
  · induction ops generalizing s with
    | nil => exact ⟨h, h.2.1⟩
    | cons op rest ih => exact ih (op.step s) (sockInv_step s op h)
  · intro i
    simp [SockOp.step]
  · intro dst src
    simp [SockOp.step]
  · intro dst src
    simp [SockOp.step]
  · intro i hneg
    simp [SockOp.step, not_le.mpr hneg]
  · intro dst src hneg
    simp [SockOp.step, not_le.mpr hneg]

/-- Witness for C8: one socket owning fd 5 is move-assigned, closed and
destroyed; fd 5 ends up closed exactly once. -/
theorem c8_witness :
    ((SockState.mk (fun i => if i = 0 then 5 else -1) []).run
      [.moveAssign 1 0, .close 1, .destruct 0, .destruct 1]).closed.count 5
      ≤ 1 := by
  have hinv : SockInv ⟨fun i => if i = 0 then 5 else -1, []⟩ := by
    refine ⟨?_, ?_, ?_⟩
    · intro i j hi hij
      by_cases hi0 : i = 0 <;> by_cases hj0 : j = 0 <;>
        simp [hi0, hj0] at hi hij ⊢
    · intro v _
      simp
    · intro i _
      simp
  exact (c8_socket_closes_each_fd_at_most_once
    [.moveAssign 1 0, .close 1, .destruct 0, .destruct 1]
    ⟨fun i => if i = 0 then 5 else -1, []⟩ hinv).1.2 5 (by decide)

/-- Helper for C10: if every underlying write reports a zero-byte
success, `remaining_bytes` never changes and the `write_all` loop is
still running after any finite number of iterations. -/
theorem write_all_go_zero_stream (rs : List WriteResult)
    (h : ∀ r ∈ rs, r = .ok 0) (written : Nat) :
    write_all_go rs written 1 = none := by
  induction rs generalizing written with
  | nil => simp [write_all_go]
  | cons r rest ih =>
    have hr : r = .ok 0 := h r (List.mem_cons_self r rest)
    subst hr
    rw [write_all_go, if_neg one_ne_zero]
    show write_all_go rest ((written + 0) % SIZE_T_MOD)
        ((1 + (SIZE_T_MOD - 0 % SIZE_T_MOD)) % SIZE_T_MOD) = none
    have e2 : (1 + (SIZE_T_MOD - 0 % SIZE_T_MOD)) % SIZE_T_MOD = 1 := by
      rw [Nat.zero_mod, Nat.sub_zero, Nat.add_mod_right]
      exact Nat.mod_eq_of_lt (by norm_num [SIZE_T_MOD])
    rw [e2]
    exact ih (fun r hr => h r (List.mem_cons_of_mem _ hr)) _

/-- C10 counterexample: on a 1-byte buffer, against the result sequence
that endlessly reports a successful zero-byte write, `write_all` never
terminates — no finite number of loop iterations reaches an exit. -/
theorem c10_counterexample_zero_byte_writes :
    ¬ WriteAllTerminates 1 (fun _ => .ok 0) := by
  rintro ⟨n, hn⟩
  apply hn
  apply write_all_go_zero_stream
  intro r hr
  simp only [List.mem_map] at hr
  obtain ⟨_, _, hr⟩ := hr
  exact hr.symm

/-- Helper for C10: against kernel-faithful write results, the loop
terminates; it exits with success exactly when the cumulative count
reaches `written + remaining`, and an error exit propagates the first
error in the sequence. -/
theorem write_all_go_good : ∀ (rs : List WriteResult)
    (remaining written : Nat), written + remaining < SIZE_T_MOD →
    goodResults rs remaining →
    ∃ out w, write_all_go rs written remaining = some (out, w) ∧
      (out = .ok () ↔ w = written + remaining) ∧
      (∀ e, out = .error e → firstError rs = some e) := by
  intro rs
  induction rs with
  | nil =>
    intro remaining written hlt hg
    cases remaining with
    | zero => exact ⟨.ok (), written, rfl, by simp, by simp⟩
    | succ m => exact (hg : False).elim
  | cons r rest ih =>
    intro remaining written hlt hg
    cases remaining with
    | zero => exact ⟨.ok (), written, rfl, by simp, by simp⟩
    | succ m =>
      cases r with
      | error e =>
        refine ⟨.error e, written, ?_, ?_, ?_⟩
        · rw [write_all_go, if_neg (Nat.succ_ne_zero m)]
        · constructor
          · intro hcontra
            exact absurd hcontra (by simp)
          · intro hw
            exact absurd hw (by omega)
        · intro e' he'
          simp only [Except.error.injEq] at he'
          subst he'
          rfl
      | ok k =>
        have hg' : 1 ≤ k ∧ k ≤ m + 1 ∧ goodResults rest (m + 1 - k) := hg
        obtain ⟨hk1, hk2, hrest⟩ := hg'
        have hkM : k < SIZE_T_MOD := by omega
        have e1 : (written + k) % SIZE_T_MOD = written + k :=
          Nat.mod_eq_of_lt (by omega)
        have ek : k % SIZE_T_MOD = k := Nat.mod_eq_of_lt hkM
        have e2 : (m + 1 + (SIZE_T_MOD - k % SIZE_T_MOD)) % SIZE_T_MOD
            = m + 1 - k := by
          rw [ek]
          have h3 : m + 1 + (SIZE_T_MOD - k) = (m + 1 - k) + SIZE_T_MOD := by
            omega
          rw [h3, Nat.add_mod_right]
          exact Nat.mod_eq_of_lt (by omega)
        obtain ⟨out, w, heq, hiff, herr⟩ :=
          ih (m + 1 - k) (written + k) (by omega) hrest
        refine ⟨out, w, ?_, ?_, ?_⟩
        · rw [write_all_go, if_neg (Nat.succ_ne_zero m)]
          show write_all_go rest ((written + k) % SIZE_T_MOD)
              ((m + 1 + (SIZE_T_MOD - k % SIZE_T_MOD)) % SIZE_T_MOD)
              = some (out, w)
          rw [e1, e2]
          exact heq
        · rw [hiff]
          omega
        · intro e' he'
          exact herr e' he'

/-- C10 (amended): `Socket::write_all` terminates for every buffer and
every sequence of underlying write results in which each successful
write reports at least one byte and at most the number requested; it
yields success exactly when the cumulative bytes written equal the
span's size, and yields the first write error unchanged otherwise. (An
unrestricted result sequence — endlessly repeated zero-byte successes —
defeats termination, refuting the original claim.) -/
theorem c10_write_all_first_error_or_full (len : Nat)
    (rs : List WriteResult) (hlen : len < SIZE_T_MOD)
    (hg : goodResults rs len) :
    ∃ out w, write_all_go rs 0 len = some (out, w) ∧
      (out = .ok () ↔ w = len) ∧
      (∀ e, out = .error e → firstError rs = some e) := by
  have hmain := write_all_go_good rs len 0 (by omega) hg
  simpa using hmain

/-- Witness for C10: a 5-byte buffer written in chunks of 2 and 3. -/
theorem c10_witness :
    ∃ out w,
      write_all_go [Except.ok 2, Except.ok 3] 0 5 = some (out, w) ∧
      (out = Except.ok () ↔ w = 5) ∧
      (∀ e, out = Except.error e →
        firstError [Except.ok 2, Except.ok 3] = some e) :=
  c10_write_all_first_error_or_full 5 [.ok 2, .ok 3]
    (by norm_num [SIZE_T_MOD]) (by decide)

end Zedio
